import Mathlib

/-!
Verification of the GROMACS HIP nonbonded GPU module.

Shallow embedding of the force kernel's per-pair arithmetic
(src/gromacs/nbnxm/hip/nbnxm_hip_kernel.hpp), the host-side data
management layer (src/gromacs/nbnxm/nbnxm_gpu_data_mgmt.cpp) and the
vector math utilities (src/gromacs/gpu_utils/vectype_ops.hpp).

Single-precision device floats are modelled as rationals; the hardware
reciprocal square root approximation `__frsqrt_rn` is an uninterpreted
function parameter, since the properties verified here do not depend on
its value.
-/

namespace Gromacs

/-! ### Vector math (vectype_ops.hpp) -/

/-- Model of the 3-wide float vector `float3` with rational components. -/
structure Float3 where
  x : ℚ
  y : ℚ
  z : ℚ
deriving DecidableEq, Repr

/-- Model of the 4-wide float vector `float4`. -/
structure Float4 where
  x : ℚ
  y : ℚ
  z : ℚ
  w : ℚ
deriving DecidableEq, Repr

/-- Componentwise `float3` addition (the plain HIP `float3` operator). -/
def Float3.add (a b : Float3) : Float3 :=
  ⟨a.x + b.x, a.y + b.y, a.z + b.z⟩

/-- Componentwise `float3` subtraction. -/
def Float3.sub (a b : Float3) : Float3 :=
  ⟨a.x - b.x, a.y - b.y, a.z - b.z⟩

/-- Componentwise (elementwise) `float3` multiplication. -/
def Float3.mul (a b : Float3) : Float3 :=
  ⟨a.x * b.x, a.y * b.y, a.z * b.z⟩

/-- Scalar times `float3`, componentwise. -/
def Float3.smulL (s : ℚ) (a : Float3) : Float3 :=
  ⟨s * a.x, s * a.y, s * a.z⟩

/-- A `float3` times scalar, componentwise. -/
def Float3.smulR (a : Float3) (s : ℚ) : Float3 :=
  ⟨a.x * s, a.y * s, a.z * s⟩

/-- Source `make_float3(float s)`: returns `make_float3(s, s, s)`. -/
def make_float3 (s : ℚ) : Float3 := ⟨s, s, s⟩

/-- Source `make_float3(float4 a)`: returns `make_float3(a.x, a.y, a.z)`. -/
def make_float3_of4 (a : Float4) : Float3 := ⟨a.x, a.y, a.z⟩

/-- Source `norm2(float3 a)`: `a.x * a.x + a.y * a.y + a.z * a.z`. -/
def Float3.norm2 (a : Float3) : ℚ :=
  a.x * a.x + a.y * a.y + a.z * a.z

/-- Source `iprod(a, b)`: `a.x * b.x + a.y * b.y + a.z * b.z`. -/
def iprod (a b : Float3) : ℚ :=
  a.x * b.x + a.y * b.y + a.z * b.z

/-- Source `cos_angle(a, b)`.  The device intrinsic `__frsqrt_rn` is passed
in as an arbitrary function `frsqrt`, since the clamping logic does not
depend on its value. -/
def cos_angle (frsqrt : ℚ → ℚ) (a b : Float3) : ℚ :=
  let ipa := Float3.norm2 a
  let ipb := Float3.norm2 b
  let ip := iprod a b
  let ipab := ipa * ipb
  let cosval := if ipab > 0 then ip * frsqrt ipab else 1
  if cosval > 1 then 1
  else if cosval < -1 then -1
  else cosval

/-- Model of `fast_float3`: a packed pair `dxy` (the 2-wide native float
vector holding x and y) together with a scalar `dz`. -/
structure FastFloat3 where
  dxy : ℚ × ℚ
  dz : ℚ
deriving DecidableEq, Repr

/-- Accessor `x` of `fast_float3` (first lane of `dxy`). -/
def FastFloat3.x (a : FastFloat3) : ℚ := a.dxy.1

/-- Accessor `y` of `fast_float3` (second lane of `dxy`). -/
def FastFloat3.y (a : FastFloat3) : ℚ := a.dxy.2

/-- Accessor `z` of `fast_float3` (the `dz` field). -/
def FastFloat3.z (a : FastFloat3) : ℚ := a.dz

/-- Componentwise product of two 2-wide native float vectors. -/
def float2mul (a b : ℚ × ℚ) : ℚ × ℚ := (a.1 * b.1, a.2 * b.2)

/-- Componentwise sum of two 2-wide native float vectors. -/
def float2add (a b : ℚ × ℚ) : ℚ × ℚ := (a.1 + b.1, a.2 + b.2)

/-- Componentwise difference of two 2-wide native float vectors. -/
def float2sub (a b : ℚ × ℚ) : ℚ × ℚ := (a.1 - b.1, a.2 - b.2)

/-- A 2-wide native float vector scaled by a scalar on the right. -/
def float2smulR (a : ℚ × ℚ) (s : ℚ) : ℚ × ℚ := (a.1 * s, a.2 * s)

/-- A 2-wide native float vector scaled by a scalar on the left. -/
def float2smulL (s : ℚ) (a : ℚ × ℚ) : ℚ × ℚ := (s * a.1, s * a.2)

/-- Source `operator*(fast_float3 x, fast_float3 y)`:
`fast_float3{ x.dxy * y.dxy, x.dz * y.dz }`. -/
def FastFloat3.mul (a b : FastFloat3) : FastFloat3 :=
  ⟨float2mul a.dxy b.dxy, a.dz * b.dz⟩

/-- Source `operator*(fast_float3 x, float y)`:
`fast_float3{ x.dxy * y, x.dz * y }`. -/
def FastFloat3.smulR (a : FastFloat3) (s : ℚ) : FastFloat3 :=
  ⟨float2smulR a.dxy s, a.dz * s⟩

/-- Source `operator*(float x, fast_float3 y)`:
`fast_float3{ x * y.dxy, x * y.dz }`. -/
def FastFloat3.smulL (s : ℚ) (a : FastFloat3) : FastFloat3 :=
  ⟨float2smulL s a.dxy, s * a.dz⟩

/-- Source `operator+(fast_float3 x, fast_float3 y)`:
`fast_float3{ x.dxy + y.dxy, x.dz + y.dz }`. -/
def FastFloat3.add (a b : FastFloat3) : FastFloat3 :=
  ⟨float2add a.dxy b.dxy, a.dz + b.dz⟩

/-- Source `operator-(fast_float3 x, fast_float3 y)`:
`fast_float3{ x.dxy - y.dxy, x.dz - y.dz }`. -/
def FastFloat3.sub (a b : FastFloat3) : FastFloat3 :=
  ⟨float2sub a.dxy b.dxy, a.dz - b.dz⟩

/-- Source `make_fast_float3(float x)`: `fast_float3{ x, x, x }`. -/
def make_fast_float3 (s : ℚ) : FastFloat3 := ⟨(s, s), s⟩

/-- Source `make_fast_float3(float4 x)`: `fast_float3{ x.x, x.y, x.z }`. -/
def make_fast_float3_of4 (a : Float4) : FastFloat3 := ⟨(a.x, a.y), a.z⟩

/-- Source `norm2(fast_float3 a)`: `fast_float3 b = a * a; return b.x + b.y + b.z`. -/
def FastFloat3.norm2 (a : FastFloat3) : ℚ :=
  let b := FastFloat3.mul a a
  b.x + b.y + b.z

/-- Source `operator float3()` on `fast_float3`: `float3{ x, y, z }`. -/
def FastFloat3.toFloat3 (a : FastFloat3) : Float3 :=
  ⟨a.x, a.y, a.z⟩

/-! ### Force kernel inner loop (nbnxm_hip_kernel.hpp)

Per-pair arithmetic of the `nbnxn_kernel` inner loop, for the plain
cutoff-electrostatics, force-only, no-combination-rule variant
(no `EXCLUSION_FORCES`, no switch functions, no Ewald terms).  The
constant `c_nbnxnMinDistanceSquared` lives outside the reviewed files and
is kept as a parameter `minDist2`; likewise the intrinsic `__frsqrt_rn`
is an arbitrary function `frsqrt`. -/

/-- Source line `r2 = fmax(r2, c_nbnxnMinDistanceSquared)`: the squared
distance floor-clamped before the reciprocal square root. -/
def clampedR2 (r2 minDist2 : ℚ) : ℚ := max r2 minDist2

/-- The cutoff and exclusion check of the kernel variants without
`EXCLUSION_FORCES`: `if ((r2 < rcoulomb_sq) * int_bit)`.  The boolean
comparison converts to 1.0/0.0 and the float product is treated as a
truth value (nonzero = taken). -/
def pairGuardNoExclForces (r2 rcoulomb_sq int_bit : ℚ) : Bool :=
  decide ((if r2 < rcoulomb_sq then (1 : ℚ) else 0) * int_bit ≠ 0)

/-- Source `nonSelfInteraction = !(nb_sci.shift == gmx::c_centralShiftIndex
& tidxj <= tidxi)`; the shift comparison is abstracted to the boolean
`shiftIsCentral`. -/
def nonSelfInteraction (shiftIsCentral : Bool) (tidxi tidxj : ℕ) : Bool :=
  !(shiftIsCentral && decide (tidxj ≤ tidxi))

/-- The cutoff and exclusion check of the kernel variants with
`EXCLUSION_FORCES`:
`if ((r2 < rcoulomb_sq) && (ci != (nonSelfInteraction ? -1 : cj)))`. -/
def pairGuardExclForces (r2 rcoulomb_sq : ℚ) (ci cj : ℤ) (nsi : Bool) : Bool :=
  decide (r2 < rcoulomb_sq) && decide (ci ≠ (if nsi then -1 else cj))

/-- The pair force vector `f_ij = rv * F_invr` computed by the guarded
body: LJ force `F_invr = inv_r6 * (c6c12.y * inv_r6 - c6c12.x) * inv_r2`
plus the cutoff-electrostatics term `qi * qj_f * inv_r2 * inv_r`, where
`inv_r = __frsqrt_rn(fmax(r2, c_nbnxnMinDistanceSquared))`. -/
def pairForce (frsqrt : ℚ → ℚ) (minDist2 c6c12x c6c12y qi qj_f : ℚ)
    (rv : FastFloat3) : FastFloat3 :=
  let r2 := FastFloat3.norm2 rv
  let r2c := clampedR2 r2 minDist2
  let inv_r := frsqrt r2c
  let inv_r2 := inv_r * inv_r
  let inv_r6 := inv_r2 * inv_r2 * inv_r2
  let F_invr := inv_r6 * (c6c12y * inv_r6 - c6c12x) * inv_r2
  let F_invr2 := F_invr + qi * qj_f * inv_r2 * inv_r
  FastFloat3.smulR rv F_invr2

/-- One inner-loop pair evaluation: under the cutoff and exclusion check
the force vector `f_ij` is accumulated into the j buffer
(`fcj_buf = fcj_buf + f_ij`) and subtracted from the i-cluster buffer
(`fci_buf[i] = fci_buf[i] - f_ij`); otherwise both are unchanged. -/
def pairInteraction (frsqrt : ℚ → ℚ) (minDist2 rcoulomb_sq : ℚ)
    (c6c12x c6c12y qi qj_f int_bit : ℚ) (rv fcj_buf fci : FastFloat3) :
    FastFloat3 × FastFloat3 :=
  if pairGuardNoExclForces (FastFloat3.norm2 rv) rcoulomb_sq int_bit then
    let f_ij := pairForce frsqrt minDist2 c6c12x c6c12y qi qj_f rv
    (FastFloat3.add fcj_buf f_ij, FastFloat3.sub fci f_ij)
  else
    (fcj_buf, fci)

/-! ### Energy accumulator slots (nbnxm_hip_types.h, nbnxm_hip_kernel.hpp,
gpu_launch_cpyback in nbnxm_gpu_data_mgmt.cpp) -/

/-- Source `c_clEnergyMemoryMultiplier = 64U` (GMX_ENABLE_MEMORY_MULTIPLIER
is defined in nbnxm_hip_types.h). -/
def c_clEnergyMemoryMultiplier : ℕ := 64

/-- Source `c_clEnergyMemorySize`: multiplier + 1 when the multiplier is
not 1, here 65. -/
def c_clEnergyMemorySize : ℕ := c_clEnergyMemoryMultiplier + 1

/-- Source `energy_index_base = 1 + (bidx & (c_clEnergyMemoryMultiplier - 1))`
under GMX_ENABLE_MEMORY_MULTIPLIER. -/
def energy_index_base (bidx : ℕ) : ℕ :=
  1 + (bidx &&& (c_clEnergyMemoryMultiplier - 1))

/-- One thread block accumulating its reduced energy into the device
energy buffer at `energy_index_base bidx` (the `e_lj = atdat.eLJ +
energy_index_base` target of `reduce_energy_warp_shfl`). -/
def kernelAccumulateEnergy (eLJ : ℕ → ℚ) (bidx : ℕ) (e : ℚ) : ℕ → ℚ :=
  fun i => if i = energy_index_base bidx then eLJ i + e else eLJ i

/-- The local-stream energy download of `gpu_launch_cpyback`: it copies
one element from device offset 0 (`copyFromDeviceBuffer(nb->nbst.eLJ,
&adat->eLJ, 0, 1, ...)`); the `nbnxn_kernel_sum_up` launch that would sum
the memory slots beforehand is commented out in the source. -/
def cpybackEnergy (eLJ : ℕ → ℚ) : ℚ := eLJ 0

/-- Sum of the device energy accumulator over all memory slots. -/
def slotSum (eLJ : ℕ → ℚ) : ℚ :=
  ∑ i ∈ Finset.range c_clEnergyMemorySize, eLJ i

/-! ### Atom data management (gpu_init_atomdata in nbnxm_gpu_data_mgmt.cpp) -/

/-- Modelled from the spec: the over-allocation policy `over_alloc_small`
(round the requested count up by a margin); its definition lives outside
the reviewed files.  The GROMACS policy is `1.19 * n + 100` truncated to
int, modelled here as `119 * n / 100 + 100`. -/
def over_alloc_small (n : ℤ) : ℤ := 119 * n / 100 + 100

/-- Device-side atom data tracked by `gpu_init_atomdata`: logical count,
allocated capacity (−1 before the first allocation), the force buffer and
the per-atom LJ-parameter/type buffer.  Buffer cells hold `none` when
their content is undefined (freshly allocated, never written). -/
structure NBAtomDataModel where
  numAtoms : ℤ
  numAtomsAlloc : ℤ
  f : ℤ → Option ℚ
  ljParams : ℤ → Option ℚ

/-- The `initAtomdataFirst` state: capacity −1, no buffers. -/
def initAtomdataFirst : NBAtomDataModel :=
  { numAtoms := -1
    numAtomsAlloc := -1
    f := fun _ => none
    ljParams := fun _ => none }

/-- Source `gpu_init_atomdata`: reallocates (freeing the old buffers, so
their contents are lost) only when `numAtoms > numAtomsAlloc`, taking the
new capacity from `over_alloc_small`; zero-fills the force buffer over the
full new capacity when reallocation happened; and uploads the per-atom
parameters for the first `numAtoms` elements unconditionally. -/
def gpu_init_atomdata (st : NBAtomDataModel) (hostParams : ℤ → ℚ)
    (numAtoms : ℤ) : NBAtomDataModel :=
  let realloced := numAtoms > st.numAtomsAlloc
  let numAlloc := if realloced then over_alloc_small numAtoms else st.numAtomsAlloc
  let f0 : ℤ → Option ℚ := if realloced then fun _ => none else st.f
  let p0 : ℤ → Option ℚ := if realloced then fun _ => none else st.ljParams
  let f1 : ℤ → Option ℚ :=
    if realloced then fun i => if 0 ≤ i ∧ i < numAlloc then some 0 else f0 i
    else f0
  let p1 : ℤ → Option ℚ :=
    fun i => if 0 ≤ i ∧ i < numAtoms then some (hostParams i) else p0 i
  { numAtoms := numAtoms
    numAtomsAlloc := numAlloc
    f := f1
    ljParams := p1 }

/-! ### Pair list management and short-range-work flags
(nbnxm_gpu_data_mgmt.cpp) -/

/-- Host pair list handed to `gpu_init_pairlist`: atoms per cluster and
the three uploaded arrays (super-cluster entries, cluster-pair groups,
exclusion words), with element types abstracted to integers. -/
structure HostPairlist where
  na_ci : ℤ
  sci : List ℤ
  cj4 : List ℤ
  excl : List ℤ
deriving DecidableEq, Repr

/-- Device pair list state: `na_c` and `nsci` are −1 before first
initialization (as set by `init_plist`). -/
structure DevPairlist where
  na_c : ℤ
  nsci : ℤ
  sci : List ℤ
  ncj4 : ℤ
  cj4 : List ℤ
  nexcl : ℤ
  excl : List ℤ
  haveFreshList : Bool
deriving DecidableEq, Repr

/-- Source `init_plist`: all sizes −1, no fresh list. -/
def init_plist : DevPairlist :=
  { na_c := -1
    nsci := -1
    sci := []
    ncj4 := -1
    cj4 := []
    nexcl := -1
    excl := []
    haveFreshList := false }

/-- Upload part of `gpu_init_pairlist`: grows the device arrays to the
host list sizes, copies the three arrays, and marks the list as requiring
pruning (`haveFreshList = true`). -/
def gpu_init_pairlist_upload (d : DevPairlist) (h : HostPairlist) : DevPairlist :=
  { d with
    nsci := (h.sci.length : ℤ)
    sci := h.sci
    ncj4 := (h.cj4.length : ℤ)
    cj4 := h.cj4
    nexcl := (h.excl.length : ℤ)
    excl := h.excl
    haveFreshList := true }

/-- Source `gpu_init_pairlist`: adopt `na_ci` on the first call
(`d_plist->na_c < 0`), raise the fatal `gmx_incons` error when a later
call disagrees, and upload the list otherwise. -/
def gpu_init_pairlist (d : DevPairlist) (h : HostPairlist) :
    Except String DevPairlist :=
  if d.na_c < 0 then
    Except.ok (gpu_init_pairlist_upload { d with na_c := h.na_ci } h)
  else if d.na_c ≠ h.na_ci then
    Except.error "In init_plist: the number of atoms per cell has changed"
  else
    Except.ok (gpu_init_pairlist_upload d h)

/-- Source `setupGpuShortRangeWork`: there is short-range work when the
pair list for the locality contains entries (`nsci != 0`) or when the
bonded-forces collaborator reports interactions. -/
def setupGpuShortRangeWork (nsci : ℤ) (bondedHaveInteractions : Bool) : Bool :=
  decide (nsci ≠ 0) || bondedHaveInteractions

/-- Source `haveGpuShortRangeWork`: returns the cached flag. -/
def haveGpuShortRangeWork (haveWork : Bool) : Bool := haveWork

/-- The claim wording (and spec wording): a pair list is non-empty when it
contains at least one super-cluster entry. -/
def specPairListNonEmpty (nsci : ℤ) : Prop := 0 < nsci

/-! ### Ewald kernel type selection (nbnxn_gpu_pick_ewald_kernel_type) -/

/-- Electrostatics kernel flavors (subset used by the Ewald picker). -/
inductive ElecType where
  | EwaldAna
  | EwaldTab
  | EwaldAnaTwin
  | EwaldTabTwin
deriving DecidableEq, Repr

/-- Source `nbnxn_gpu_pick_ewald_kernel_type`, with the three environment
overrides, the twin-cutoff condition `rcoulomb != rvdw` and the
platform-dependent tabulated default as booleans.  `gmx_incons` does not
return, modelled as an error result. -/
def nbnxn_gpu_pick_ewald_kernel_type (bTwinCut forceAnalyticalEwald
    forceTabulatedEwald forceTwinCutoffEwald useTabulatedEwaldDefault : Bool) :
    Except String ElecType :=
  if forceAnalyticalEwald && forceTabulatedEwald then
    Except.error "Both analytical and tabulated Ewald GPU non-bonded kernels requested through environment variables."
  else
    let bUseAnalyticalEwald :=
      if forceAnalyticalEwald then true
      else if forceTabulatedEwald then false
      else !useTabulatedEwaldDefault
    if !bTwinCut && !forceTwinCutoffEwald then
      Except.ok (if bUseAnalyticalEwald then ElecType.EwaldAna else ElecType.EwaldTab)
    else
      Except.ok (if bUseAnalyticalEwald then ElecType.EwaldAnaTwin else ElecType.EwaldTabTwin)

/-- Discriminator: true when kernel type selection succeeded. -/
def pickSucceeded (r : Except String ElecType) : Bool :=
  match r with
  | Except.ok _ => true
  | Except.error _ => false

/-- Claim C9: for every pair of input vectors a and b (including zero
vectors) and every reciprocal-square-root approximation, `cos_angle`
returns a value in the closed interval [-1, 1]. -/
theorem cos_angle_clamped (frsqrt : ℚ → ℚ) (a b : Float3) :
    -1 ≤ cos_angle frsqrt a b ∧ cos_angle frsqrt a b ≤ 1 := by
  unfold cos_angle
  set c := if Float3.norm2 a * Float3.norm2 b > 0
    then iprod a b * frsqrt (Float3.norm2 a * Float3.norm2 b) else (1 : ℚ) with hc
  by_cases h1 : c > 1
  · simp only [if_pos h1]
    norm_num
  · simp only [if_neg h1]
    by_cases h2 : c < -1
    · simp only [if_pos h2]
      norm_num
    · simp only [if_neg h2]
      constructor
      · linarith [not_lt.mp h2]
      · linarith [not_lt.mp h1]

/-- Claim C10: the packed `fast_float3` operations are componentwise
equivalent to the plain componentwise `float3` definitions: addition,
subtraction, elementwise and scalar multiplication, `make_fast_float3`
and `norm2` all agree with the corresponding `float3` operations on the
same component values. -/
theorem fast_float3_refines_float3 (a b : FastFloat3) (s : ℚ) (v : Float4) :
    (FastFloat3.add a b).toFloat3 = Float3.add a.toFloat3 b.toFloat3 ∧
    (FastFloat3.sub a b).toFloat3 = Float3.sub a.toFloat3 b.toFloat3 ∧
    (FastFloat3.mul a b).toFloat3 = Float3.mul a.toFloat3 b.toFloat3 ∧
    (FastFloat3.smulR a s).toFloat3 = Float3.smulR a.toFloat3 s ∧
    (FastFloat3.smulL s a).toFloat3 = Float3.smulL s a.toFloat3 ∧
    (make_fast_float3 s).toFloat3 = make_float3 s ∧
    (make_fast_float3_of4 v).toFloat3 = make_float3_of4 v ∧
    FastFloat3.norm2 a = Float3.norm2 a.toFloat3 := by
  refine ⟨rfl, rfl, rfl, rfl, rfl, rfl, rfl, rfl⟩

/-- Helper: adding a vector to one accumulator and subtracting it from
another leaves the sum of the two deltas at zero. -/
theorem fast_delta_cancel (u v f : FastFloat3) :
    FastFloat3.add (FastFloat3.sub (FastFloat3.add u f) u)
      (FastFloat3.sub (FastFloat3.sub v f) v) = make_fast_float3 0 := by
  simp only [FastFloat3.add, FastFloat3.sub, make_fast_float3, float2add,
    float2sub, FastFloat3.mk.injEq, Prod.mk.injEq]
  refine ⟨⟨by ring, by ring⟩, by ring⟩

/-- Helper: starting from zero accumulators, one accumulation step leaves
opposite totals. -/
theorem fast_zero_cancel (f : FastFloat3) :
    FastFloat3.add (FastFloat3.add (make_fast_float3 0) f)
      (FastFloat3.sub (make_fast_float3 0) f) = make_fast_float3 0 := by
  simp only [FastFloat3.add, FastFloat3.sub, make_fast_float3, float2add,
    float2sub, FastFloat3.mk.injEq, Prod.mk.injEq]
  refine ⟨⟨by ring, by ring⟩, by ring⟩

/-- Helper: the sum of two unchanged deltas is zero. -/
theorem fast_self_cancel (u v : FastFloat3) :
    FastFloat3.add (FastFloat3.sub u u) (FastFloat3.sub v v) =
      make_fast_float3 0 := by
  simp only [FastFloat3.add, FastFloat3.sub, make_fast_float3, float2add,
    float2sub, FastFloat3.mk.injEq, Prod.mk.injEq]
  refine ⟨⟨by ring, by ring⟩, by ring⟩

/-- Claim C1: an atom pair contributes force only when its squared
distance is strictly below the squared coulomb cutoff.  At
`r2 = rcoulomb_sq` both guard variants are false and the accumulators
are unchanged; for an included, non-excluded pair strictly below the
cutoff the guard is true and the pair force is accumulated. -/
theorem pair_cutoff_strict (frsqrt : ℚ → ℚ)
    (minDist2 rcoulomb_sq c6c12x c6c12y qi qj_f int_bit : ℚ)
    (rv fcj fci : FastFloat3) (ci cj : ℤ) (nsi : Bool) :
    (FastFloat3.norm2 rv = rcoulomb_sq →
      pairInteraction frsqrt minDist2 rcoulomb_sq c6c12x c6c12y qi qj_f
          int_bit rv fcj fci = (fcj, fci) ∧
      pairGuardNoExclForces (FastFloat3.norm2 rv) rcoulomb_sq int_bit = false ∧
      pairGuardExclForces (FastFloat3.norm2 rv) rcoulomb_sq ci cj nsi = false) ∧
    (FastFloat3.norm2 rv < rcoulomb_sq → int_bit = 1 →
      pairGuardNoExclForces (FastFloat3.norm2 rv) rcoulomb_sq int_bit = true) ∧
    (FastFloat3.norm2 rv < rcoulomb_sq → 0 ≤ ci → ci ≠ cj →
      pairGuardExclForces (FastFloat3.norm2 rv) rcoulomb_sq ci cj nsi = true) ∧
    (pairGuardNoExclForces (FastFloat3.norm2 rv) rcoulomb_sq int_bit = true →
      pairInteraction frsqrt minDist2 rcoulomb_sq c6c12x c6c12y qi qj_f
          int_bit rv fcj fci =
        (FastFloat3.add fcj (pairForce frsqrt minDist2 c6c12x c6c12y qi qj_f rv),
         FastFloat3.sub fci (pairForce frsqrt minDist2 c6c12x c6c12y qi qj_f rv))) := by
  refine ⟨?_, ?_, ?_, ?_⟩
  · intro hb
    have hlt : ¬ FastFloat3.norm2 rv < rcoulomb_sq := by
      rw [hb]
      exact lt_irrefl _
    have hg : pairGuardNoExclForces (FastFloat3.norm2 rv) rcoulomb_sq int_bit = false := by
      simp [pairGuardNoExclForces, if_neg hlt]
    refine ⟨?_, hg, ?_⟩
    · simp [pairInteraction, hg]
    · simp [pairGuardExclForces, hlt]
  · intro hlt hib
    simp [pairGuardNoExclForces, if_pos hlt, hib]
  · intro hlt hci hne
    rcases nsi with _ | _
    · simp [pairGuardExclForces, hlt, hne]
    · have : ci ≠ (-1 : ℤ) := by omega
      simp [pairGuardExclForces, hlt, this]
  · intro hg
    simp [pairInteraction, hg]

/-- Claim C1 witness: concrete instances at the boundary and strictly
inside the cutoff. -/
theorem pair_cutoff_strict_witness :
    (pairInteraction id 0 1 0 0 0 0 1 ⟨(1, 0), 0⟩ (make_fast_float3 0)
        (make_fast_float3 0) = (make_fast_float3 0, make_fast_float3 0)) ∧
    pairGuardNoExclForces (FastFloat3.norm2 ⟨((1 : ℚ) / 2, 0), 0⟩) 1 1 = true ∧
    pairGuardExclForces (FastFloat3.norm2 ⟨((1 : ℚ) / 2, 0), 0⟩) 1 0 1 true = true := by
  have h1 : FastFloat3.norm2 ⟨((1 : ℚ), 0), 0⟩ = 1 := by
    norm_num [FastFloat3.norm2, FastFloat3.mul, float2mul, FastFloat3.x,
      FastFloat3.y, FastFloat3.z]
  have h2 : FastFloat3.norm2 ⟨((1 : ℚ) / 2, 0), 0⟩ < 1 := by
    norm_num [FastFloat3.norm2, FastFloat3.mul, float2mul, FastFloat3.x,
      FastFloat3.y, FastFloat3.z]
  refine ⟨?_, ?_, ?_⟩
  · exact ((pair_cutoff_strict id 0 1 0 0 0 0 1 ⟨(1, 0), 0⟩ (make_fast_float3 0)
      (make_fast_float3 0) 0 1 true).1 h1).1
  · exact (pair_cutoff_strict id 0 1 0 0 0 0 1 ⟨((1 : ℚ) / 2, 0), 0⟩
      (make_fast_float3 0) (make_fast_float3 0) 0 1 true).2.1 h2 rfl
  · exact (pair_cutoff_strict id 0 1 0 0 0 0 1 ⟨((1 : ℚ) / 2, 0), 0⟩
      (make_fast_float3 0) (make_fast_float3 0) 0 1 true).2.2.1 h2
      (by decide) (by decide)

/-- Claim C2: each evaluated pair adds the force vector to the j
accumulator and subtracts the same vector from the i accumulator, so the
two accumulated deltas cancel exactly; with zero initial accumulators
(the two-atom system) the i total is the exact negation of the j total. -/
theorem pair_force_antisymm (frsqrt : ℚ → ℚ)
    (minDist2 rcoulomb_sq c6c12x c6c12y qi qj_f int_bit : ℚ)
    (rv fcj fci : FastFloat3) :
    FastFloat3.add
        (FastFloat3.sub (pairInteraction frsqrt minDist2 rcoulomb_sq c6c12x
          c6c12y qi qj_f int_bit rv fcj fci).1 fcj)
        (FastFloat3.sub (pairInteraction frsqrt minDist2 rcoulomb_sq c6c12x
          c6c12y qi qj_f int_bit rv fcj fci).2 fci) = make_fast_float3 0 ∧
    FastFloat3.add
        (pairInteraction frsqrt minDist2 rcoulomb_sq c6c12x c6c12y qi qj_f
          int_bit rv (make_fast_float3 0) (make_fast_float3 0)).1
        (pairInteraction frsqrt minDist2 rcoulomb_sq c6c12x c6c12y qi qj_f
          int_bit rv (make_fast_float3 0) (make_fast_float3 0)).2 =
      make_fast_float3 0 := by
  constructor
  · unfold pairInteraction
    cases hg : pairGuardNoExclForces (FastFloat3.norm2 rv) rcoulomb_sq int_bit
    · rw [if_neg (by simp [hg])]
      exact fast_self_cancel fcj fci
    · rw [if_pos (by simp [hg])]
      exact fast_delta_cancel fcj fci _
  · unfold pairInteraction
    cases hg : pairGuardNoExclForces (FastFloat3.norm2 rv) rcoulomb_sq int_bit
    · rw [if_neg (by simp [hg])]
      simp only [FastFloat3.add, make_fast_float3, float2add, FastFloat3.mk.injEq,
        Prod.mk.injEq]
      norm_num
    · rw [if_pos (by simp [hg])]
      exact fast_zero_cancel _

/-- Claim C4: the argument of the reciprocal square root is the
floor-clamped squared distance, which is at least the minimum-distance
constant; consequently the pair evaluation cannot distinguish two
reciprocal-square-root functions that agree on arguments at or above
that constant. -/
theorem rsqrt_arg_floor_clamped (minDist2 : ℚ) (f g : ℚ → ℚ)
    (hfg : ∀ q, minDist2 ≤ q → f q = g q)
    (rcoulomb_sq c6c12x c6c12y qi qj_f int_bit : ℚ) (rv fcj fci : FastFloat3) :
    minDist2 ≤ clampedR2 (FastFloat3.norm2 rv) minDist2 ∧
    pairInteraction f minDist2 rcoulomb_sq c6c12x c6c12y qi qj_f int_bit
        rv fcj fci =
      pairInteraction g minDist2 rcoulomb_sq c6c12x c6c12y qi qj_f int_bit
        rv fcj fci := by
  refine ⟨le_max_right _ _, ?_⟩
  have h := hfg (clampedR2 (FastFloat3.norm2 rv) minDist2) (le_max_right _ _)
  unfold pairInteraction pairForce
  simp only [h]

/-- Claim C4 witness: a concrete pair of reciprocal-square-root functions
agreeing at or above the clamp floor, evaluated at concrete inputs. -/
theorem rsqrt_arg_floor_clamped_witness :
    (1 : ℚ) ≤ clampedR2 (FastFloat3.norm2 ⟨((1 : ℚ) / 2, 0), 0⟩) 1 ∧
    pairInteraction (fun q => q) 1 4 1 1 1 1 1 ⟨((1 : ℚ) / 2, 0), 0⟩
        (make_fast_float3 0) (make_fast_float3 0) =
      pairInteraction (fun q => if 1 ≤ q then q else 0) 1 4 1 1 1 1 1
        ⟨((1 : ℚ) / 2, 0), 0⟩ (make_fast_float3 0) (make_fast_float3 0) := by
  exact rsqrt_arg_floor_clamped 1 (fun q => q) (fun q => if 1 ≤ q then q else 0)
    (fun q hq => (if_pos hq).symm) 4 1 1 1 1 1 ⟨((1 : ℚ) / 2, 0), 0⟩
    (make_fast_float3 0) (make_fast_float3 0)

/-- Helper: the over-allocation policy never returns less than the
requested count. -/
theorem over_alloc_small_ge (n : ℤ) (hn : 0 ≤ n) : n ≤ over_alloc_small n := by
  unfold over_alloc_small
  have h1 : (100 : ℤ) * n / 100 ≤ 119 * n / 100 :=
    Int.ediv_le_ediv (by norm_num) (by linarith)
  rw [Int.mul_ediv_cancel_left n (by norm_num)] at h1
  linarith

/-- Claim C3 (code-bug evidence): with the memory multiplier enabled the
kernel writes each block's energy at slot `1 + (bidx mod 64)` while the
copy-back downloads only slot 0 and the slot summation is commented out;
on a zeroed buffer a single block with `bidx = 0` and energy 1 leaves the
slot sum at 1 but the host receives 0, so the delivered value is not the
sum over the memory slots. -/
theorem energy_cpyback_missing_sum :
    cpybackEnergy (kernelAccumulateEnergy (fun _ => 0) 0 1) = 0 ∧
    slotSum (kernelAccumulateEnergy (fun _ => 0) 0 1) = 1 ∧
    cpybackEnergy (kernelAccumulateEnergy (fun _ => 0) 0 1) ≠
      slotSum (kernelAccumulateEnergy (fun _ => 0) 0 1) := by
  have hbase : energy_index_base 0 = 1 := by decide
  have h1 : cpybackEnergy (kernelAccumulateEnergy (fun _ => 0) 0 1) = 0 := by
    simp [cpybackEnergy, kernelAccumulateEnergy, hbase]
  have h2 : slotSum (kernelAccumulateEnergy (fun _ => 0) 0 1) = 1 := by
    simp only [slotSum, kernelAccumulateEnergy, hbase, zero_add]
    rw [Finset.sum_ite_eq' (Finset.range c_clEnergyMemorySize) 1 (fun _ => (1 : ℚ))]
    simp [c_clEnergyMemorySize, c_clEnergyMemoryMultiplier]
  refine ⟨h1, h2, ?_⟩
  rw [h1, h2]
  norm_num

/-- Claim C5: `gpu_init_atomdata` reallocates only when the new atom count
strictly exceeds the allocated capacity, with the new capacity given by
the over-allocation policy, so capacity never shrinks; when reallocation
occurs the force buffer is zero-filled over the full new capacity; and
the per-atom parameter data for every atom below the new count (hence for
every previously covered atom when counts do not decrease) is present
after the call. -/
theorem gpu_init_atomdata_spec (st : NBAtomDataModel) (hp : ℤ → ℚ) (n : ℤ)
    (hn : 0 ≤ n) :
    st.numAtomsAlloc ≤ (gpu_init_atomdata st hp n).numAtomsAlloc ∧
    (n ≤ st.numAtomsAlloc →
      (gpu_init_atomdata st hp n).numAtomsAlloc = st.numAtomsAlloc ∧
      (gpu_init_atomdata st hp n).f = st.f) ∧
    (st.numAtomsAlloc < n →
      (gpu_init_atomdata st hp n).numAtomsAlloc = over_alloc_small n ∧
      ∀ i, 0 ≤ i → i < (gpu_init_atomdata st hp n).numAtomsAlloc →
        (gpu_init_atomdata st hp n).f i = some 0) ∧
    (∀ i, 0 ≤ i → i < n →
      (gpu_init_atomdata st hp n).ljParams i = some (hp i)) := by
  by_cases hr : st.numAtomsAlloc < n
  · have hmono : st.numAtomsAlloc ≤ over_alloc_small n :=
      le_trans (le_of_lt hr) (over_alloc_small_ge n hn)
    refine ⟨?_, ?_, ?_, ?_⟩
    · simp [gpu_init_atomdata, hr, hmono]
    · intro hle
      exact absurd hr (not_lt.mpr hle)
    · intro _
      refine ⟨by simp [gpu_init_atomdata, hr], ?_⟩
      intro i h0 hi
      simp only [gpu_init_atomdata, gt_iff_lt, hr, if_true] at hi ⊢
      rw [if_pos ⟨h0, hi⟩]
    · intro i h0 hi
      simp only [gpu_init_atomdata, gt_iff_lt, hr, if_true]
      rw [if_pos ⟨h0, hi⟩]
  · refine ⟨?_, ?_, ?_, ?_⟩
    · simp [gpu_init_atomdata, hr]
    · intro _
      constructor
      · simp [gpu_init_atomdata, hr]
      · simp [gpu_init_atomdata, hr]
    · intro hlt
      exact absurd hlt hr
    · intro i h0 hi
      simp only [gpu_init_atomdata, gt_iff_lt, hr, if_false]
      rw [if_pos ⟨h0, hi⟩]

/-- Claim C5 witness: starting from the fresh state (capacity −1), a call
with 2 atoms reallocates to the over-allocated capacity, zero-fills the
force buffer and uploads the parameters. -/
theorem gpu_init_atomdata_spec_witness :
    initAtomdataFirst.numAtomsAlloc ≤
      (gpu_init_atomdata initAtomdataFirst (fun _ => 5) 2).numAtomsAlloc ∧
    (gpu_init_atomdata initAtomdataFirst (fun _ => 5) 2).numAtomsAlloc =
      over_alloc_small 2 ∧
    (gpu_init_atomdata initAtomdataFirst (fun _ => 5) 2).f 0 = some 0 ∧
    (gpu_init_atomdata initAtomdataFirst (fun _ => 5) 2).ljParams 1 = some 5 := by
  have h := gpu_init_atomdata_spec initAtomdataFirst (fun _ => 5) 2 (by norm_num)
  have hlt : initAtomdataFirst.numAtomsAlloc < 2 := by
    norm_num [initAtomdataFirst]
  refine ⟨h.1, (h.2.2.1 hlt).1, ?_, h.2.2.2 1 (by norm_num) (by norm_num)⟩
  refine (h.2.2.1 hlt).2 0 le_rfl ?_
  rw [(h.2.2.1 hlt).1]
  norm_num [over_alloc_small]

/-- Claim C6 counterexample: for a pair list in the `init_plist` state
(`nsci = -1`), which contains no super-cluster entry, and no bonded work,
`setupGpuShortRangeWork` caches `true` because the code tests
`nsci != 0`, so the claimed equivalence with pair-list non-emptiness
fails. -/
theorem haveWork_claim_counterexample :
    ¬ (haveGpuShortRangeWork (setupGpuShortRangeWork init_plist.nsci false) = true ↔
        (specPairListNonEmpty init_plist.nsci ∨ false = true)) := by
  unfold specPairListNonEmpty haveGpuShortRangeWork setupGpuShortRangeWork init_plist
  decide

/-- Claim C6 amended: provided the locality's pair list has been
initialized (`nsci ≥ 0`, as `gpu_init_pairlist` guarantees),
`haveGpuShortRangeWork` after `setupGpuShortRangeWork` is true exactly
when the pair list is non-empty or the bonded collaborator reports
interactions; in particular for an initialized empty list with no bonded
work it is false.  (For a never-initialized list, `nsci = -1`, the code
reports work.) -/
theorem haveWork_amended (nsci : ℤ) (bonded : Bool) (h : 0 ≤ nsci) :
    (haveGpuShortRangeWork (setupGpuShortRangeWork nsci bonded) = true ↔
      (specPairListNonEmpty nsci ∨ bonded = true)) ∧
    (nsci = 0 → bonded = false →
      haveGpuShortRangeWork (setupGpuShortRangeWork nsci bonded) = false) := by
  constructor
  · unfold haveGpuShortRangeWork setupGpuShortRangeWork specPairListNonEmpty
    simp only [Bool.or_eq_true, decide_eq_true_eq]
    constructor
    · rintro (hne | hb)
      · exact Or.inl (lt_of_le_of_ne h (Ne.symm hne))
      · exact Or.inr hb
    · rintro (hpos | hb)
      · exact Or.inl (ne_of_gt hpos)
      · exact Or.inr hb
  · intro h0 hb
    subst h0
    subst hb
    rfl

/-- Claim C6 witness: a three-entry initialized pair list with no bonded
work reports work. -/
theorem haveWork_amended_witness :
    haveGpuShortRangeWork (setupGpuShortRangeWork 3 false) = true ↔
      (specPairListNonEmpty 3 ∨ false = true) :=
  (haveWork_amended 3 false (by norm_num)).1

/-- Claim C7: `gpu_init_pairlist` adopts the host list's atoms-per-cluster
value on the first call for a locality (`na_c < 0`); on a later call it
fails with the fatal inconsistency error when the host value differs, and
otherwise proceeds, uploading the three list arrays and marking the list
as requiring pruning. -/
theorem gpu_init_pairlist_spec (d : DevPairlist) (h : HostPairlist) :
    (d.na_c < 0 →
      ∃ d2, gpu_init_pairlist d h = Except.ok d2 ∧ d2.na_c = h.na_ci) ∧
    (0 ≤ d.na_c → d.na_c ≠ h.na_ci →
      ∀ d2, gpu_init_pairlist d h ≠ Except.ok d2) ∧
    (0 ≤ d.na_c → d.na_c = h.na_ci →
      gpu_init_pairlist d h = Except.ok (gpu_init_pairlist_upload d h)) ∧
    (∀ d2, gpu_init_pairlist d h = Except.ok d2 →
      d2.haveFreshList = true ∧ d2.sci = h.sci ∧ d2.cj4 = h.cj4 ∧
      d2.excl = h.excl ∧ d2.nsci = (h.sci.length : ℤ)) := by
  refine ⟨?_, ?_, ?_, ?_⟩
  · intro hneg
    refine ⟨gpu_init_pairlist_upload { d with na_c := h.na_ci } h, ?_, ?_⟩
    · unfold gpu_init_pairlist
      rw [if_pos hneg]
    · simp [gpu_init_pairlist_upload]
  · intro hge hne d2
    unfold gpu_init_pairlist
    rw [if_neg (not_lt.mpr hge), if_pos hne]
    simp
  · intro hge heq
    unfold gpu_init_pairlist
    rw [if_neg (not_lt.mpr hge), if_neg (by simp [heq])]
  · intro d2 hok
    unfold gpu_init_pairlist at hok
    by_cases hneg : d.na_c < 0
    · rw [if_pos hneg] at hok
      have hd2 : gpu_init_pairlist_upload { d with na_c := h.na_ci } h = d2 := by
        simpa using hok
      subst hd2
      simp [gpu_init_pairlist_upload]
    · rw [if_neg hneg] at hok
      by_cases hne : d.na_c ≠ h.na_ci
      · rw [if_pos hne] at hok
        simp at hok
      · rw [if_neg hne] at hok
        have hd2 : gpu_init_pairlist_upload d h = d2 := by
          simpa using hok
        subst hd2
        simp [gpu_init_pairlist_upload]

/-- Claim C7 witness: a first call on the `init_plist` state adopts
`na_ci = 8`; a second call with a stored value 4 against a host value 8
fails fatally. -/
theorem gpu_init_pairlist_spec_witness :
    (∃ d2, gpu_init_pairlist init_plist ⟨8, [0], [], []⟩ = Except.ok d2 ∧
        d2.na_c = (8 : ℤ)) ∧
    (∀ d2, gpu_init_pairlist { init_plist with na_c := 4 } ⟨8, [0], [], []⟩ ≠
        Except.ok d2) := by
  constructor
  · exact (gpu_init_pairlist_spec init_plist ⟨8, [0], [], []⟩).1 (by decide)
  · exact (gpu_init_pairlist_spec { init_plist with na_c := 4 }
      ⟨8, [0], [], []⟩).2.1 (by decide) (by decide)

/-- Claim C8: Ewald kernel-type selection raises the fatal configuration
error exactly when both the analytic-forcing and tabulated-forcing
environment overrides are set; with at most one set it returns a kernel
variant without error. -/
theorem pick_ewald_env_override_spec
    (bTwinCut fAna fTab fTwin dTab : Bool) :
    pickSucceeded
        (nbnxn_gpu_pick_ewald_kernel_type bTwinCut fAna fTab fTwin dTab) =
      !(fAna && fTab) := by
  cases fAna <;> cases fTab <;> cases bTwinCut <;> cases fTwin <;> cases dTab <;> rfl

end Gromacs
